import Mathlib

/-!
Shallow embedding of `tools/release.py`, a release-automation script built on
`packaging.version.Version`.  Machine integers are modelled as `Nat` (Python
integers are unbounded), Python exceptions as an explicit error type threaded
through `Except`, and the external world (subprocess results) as an explicit
environment record.
-/

namespace ReleaseScript

/-- Exceptions that the script can raise: `CalledProcessError` from
`subprocess.run(..., check=True)`, and the `ValueError` family —
`InvalidVersion` (a `ValueError` subclass raised by `packaging` on a
malformed version string), the `ValueError` raised by unpacking
`version.release` into three names when the tuple does not have exactly
three components, and the explicit `ValueError("Invalid bump mode ...")`
raised by `_bump_version`. -/
inductive PyError where
  | calledProcessError
  | invalidVersion
  | unpackError
  | invalidBumpMode (mode : String)
  deriving DecidableEq, Repr

/-- Whether the exception is (a subclass of) `ValueError`. -/
def PyError.isValueError : PyError → Bool
  | .calledProcessError => false
  | .invalidVersion => true
  | .unpackError => true
  | .invalidBumpMode _ => true

/-- Model of `packaging.version.Version`: an epoch, a release tuple of
arbitrary length, and the optional pre-release, post-release, dev and local
segments. -/
structure Version where
  epoch : Nat
  release : List Nat
  pre : Option (String × Nat)
  post : Option Nat
  dev : Option Nat
  localSeg : Option String
  deriving DecidableEq, Repr

/-- The decimal digit character for `d < 10`. -/
def digitChar : Nat → Char
  | 0 => '0'
  | 1 => '1'
  | 2 => '2'
  | 3 => '3'
  | 4 => '4'
  | 5 => '5'
  | 6 => '6'
  | 7 => '7'
  | 8 => '8'
  | 9 => '9'
  | _ => '!'

/-- Fuel-driven decimal printer: most-significant digit first, prepended to
`acc`.  `fuel ≥ n` suffices for the fuel never to run out. -/
def decDigitsCore : Nat → Nat → List Char → List Char
  | 0, _, acc => acc
  | fuel + 1, n, acc =>
    if n < 10 then digitChar n :: acc
    else decDigitsCore fuel (n / 10) (digitChar (n % 10) :: acc)

/-- The decimal numeral of `n`, as Python `str` renders a non-negative
`int` (no sign, no padding, `"0"` for zero). -/
def decDigits (n : Nat) : List Char :=
  if n = 0 then ['0'] else decDigitsCore n n []

/-- The decimal numeral of `n` as a `String`; models the f-string
interpolation `f"{n}"` of a non-negative Python integer. -/
def decRepr (n : Nat) : String :=
  String.mk (decDigits n)

/-- The numeric value of the digit character `c`. -/
def charDigitVal (c : Char) : Nat := c.toNat - 48

/-- The value of a most-significant-first digit string, as Python `int`
computes it (leading zeros allowed). -/
def natOfDigits (cs : List Char) : Nat :=
  cs.foldl (fun a c => a * 10 + charDigitVal c) 0

/-- Parse one release component: a non-empty string of ASCII digits. -/
def parseNatDigits (cs : List Char) : Option Nat :=
  if cs.isEmpty then none
  else if cs.all Char.isDigit then some (natOfDigits cs) else none

/-- Split a character list on `'.'`; always returns at least one (possibly
empty) part, like Python `str.split('.')`. -/
def splitOnDot : List Char → List (List Char)
  | [] => [[]]
  | c :: cs =>
    if c = '.' then [] :: splitOnDot cs
    else
      match splitOnDot cs with
      | [] => [[c]]
      | p :: ps => (c :: p) :: ps

/-- Parse every part as a release component; fail if any part fails. -/
def parseParts : List (List Char) → Option (List Nat)
  | [] => some []
  | p :: ps =>
    match parseNatDigits p, parseParts ps with
    | some n, some ns => some (n :: ns)
    | _, _ => none

/-- Drop the single optional `v` preamble of PEP 440 (the pattern `v?`
compiled case-insensitively, hence also `V`). -/
def dropLeadingV : List Char → List Char
  | [] => []
  | c :: cs => if c = 'v' ∨ c = 'V' then cs else c :: cs

/-- Model of `packaging.version.parse` / the `Version(...)` constructor,
restricted to the fragment of PEP 440 that this script exercises: an
optional case-insensitive `v` preamble followed by a dot-separated
non-empty list of decimal numerals (the release segment).  Strings outside
this fragment are parse failures (`InvalidVersion`, a `ValueError`).  A
successful parse yields epoch `0` and no pre/post/dev/local segment, which
is what `packaging` produces for plain release strings. -/
def parseVersionChars (cs : List Char) : Option Version :=
  match parseParts (splitOnDot (dropLeadingV cs)) with
  | some ns => some ⟨0, ns, none, none, none, none⟩
  | none => none

/-- The `Version(s)` constructor: parse or raise `InvalidVersion`. -/
def VersionOfString (s : String) : Except PyError Version :=
  match parseVersionChars s.data with
  | some v => Except.ok v
  | none => Except.error PyError.invalidVersion

/-- Python default whitespace, for `str.strip()`. -/
def pySpace (c : Char) : Bool :=
  c = ' ' ∨ c = '\t' ∨ c = '\n' ∨ c = '\r' ∨ c = '\x0b' ∨ c = '\x0c'

/-- Python `str.strip()`: remove whitespace from both ends. -/
def pyStrip (cs : List Char) : List Char :=
  ((cs.dropWhile pySpace).reverse.dropWhile pySpace).reverse

/-- Python `str.lstrip('v')`: remove every leading `'v'` (only lowercase). -/
def lstripV (cs : List Char) : List Char :=
  cs.dropWhile (fun c => c = 'v')

/-- The version `parse("0.0.0")` used as the fallback of `_get_latest_tag`. -/
def version000 : Version :=
  ⟨0, [0, 0, 0], none, none, none, none⟩

/-- `BumpMode` is a `str`-valued enum, so its members compare equal to the
strings `"major"`, `"minor"`, `"patch"`; these are the values, in
declaration order, that the CLI offers as `choices`. -/
def bumpModeValues : List String := ["major", "minor", "patch"]

/-- Embedding of `_bump_version(version, mode)`.  The mode is the string
value carried by the `BumpMode` str-enum (argparse hands `release` the raw
string, and `mode == BumpMode.MAJOR` is string comparison).  Unpacking
`version.release` into `major, minor, micro` raises `ValueError` unless the
release tuple has exactly three components; an unrecognized mode raises
`ValueError("Invalid bump mode ...")`; otherwise the bumped version string
is rebuilt by f-string interpolation and handed to `Version(...)`. -/
def _bump_version (version : Version) (mode : String) : Except PyError Version :=
  match version.release with
  | [major, minor, micro] =>
    if mode = "major" then
      VersionOfString (decRepr (major + 1) ++ ".0.0")
    else if mode = "minor" then
      VersionOfString (decRepr major ++ "." ++ decRepr (minor + 1) ++ ".0")
    else if mode = "patch" then
      VersionOfString (decRepr major ++ "." ++ decRepr minor ++ "." ++ decRepr (micro + 1))
    else
      Except.error (PyError.invalidBumpMode mode)
  | _ => Except.error PyError.unpackError

/-- The outcomes of the external commands that `release` runs, in program
order: each `git`/`latexmk`/`gh` invocation through `_cmd` is represented
by whether it exits zero (`subprocess.run(..., check=True)` raises
`CalledProcessError` otherwise), and `git describe` additionally by its
standard output when it succeeds (`none` means it exited non-zero). -/
structure Env where
  cleanOk : Bool
  latexmkOk : Bool
  fetchOk : Bool
  describeOut : Option String
  addOk : Bool
  commitOk : Bool
  pushOk : Bool
  ghReleaseOk : Bool
  cleanOk2 : Bool
  deriving DecidableEq, Repr

/-- The external commands of the script, for execution traces. -/
inductive Step where
  | gitClean
  | latexmk
  | gitFetch
  | gitDescribe
  | gitAdd
  | gitCommit
  | gitPush
  | ghRelease
  deriving DecidableEq, Repr

/-- Embedding of `_get_latest_tag()`: fetch tags, take the latest tag's
stdout, strip whitespace, strip every leading `'v'`, and parse; any
`CalledProcessError` or `ValueError` in that chain is caught and the
fallback `parse("0.0.0")` returned. -/
def _get_latest_tag (env : Env) : Version :=
  if env.fetchOk then
    match env.describeOut with
    | some out =>
      match parseVersionChars (lstripV (pyStrip out.data)) with
      | some v => v
      | none => version000
    | none => version000
  else version000

/-- The tag-related commands that actually run inside `_get_latest_tag`:
`git fetch --tags` always runs; `git describe` runs only when the fetch
succeeded (a `CalledProcessError` from the fetch skips straight to the
`except` clause). -/
def tagSteps (env : Env) : List Step :=
  if env.fetchOk then [Step.gitFetch, Step.gitDescribe] else [Step.gitFetch]

/-- Embedding of `release(mode)`: returns the external commands that
actually ran, in order (a failing command is included — it ran and exited
non-zero), together with the exception that escaped `release`, if any.
Every `_cmd` failure outside `_get_latest_tag` propagates immediately, as
does the `ValueError` of `_bump_version`. -/
def release (env : Env) (mode : String) : List Step × Option PyError :=
  if env.cleanOk then
    if env.latexmkOk then
      match _bump_version (_get_latest_tag env) mode with
      | Except.error e =>
        ([Step.gitClean, Step.latexmk] ++ tagSteps env, some e)
      | Except.ok _ =>
        if env.addOk then
          if env.commitOk then
            if env.pushOk then
              if env.ghReleaseOk then
                if env.cleanOk2 then
                  ([Step.gitClean, Step.latexmk] ++ tagSteps env ++
                    [Step.gitAdd, Step.gitCommit, Step.gitPush, Step.ghRelease,
                      Step.gitClean], none)
                else
                  ([Step.gitClean, Step.latexmk] ++ tagSteps env ++
                    [Step.gitAdd, Step.gitCommit, Step.gitPush, Step.ghRelease,
                      Step.gitClean], some PyError.calledProcessError)
              else
                ([Step.gitClean, Step.latexmk] ++ tagSteps env ++
                  [Step.gitAdd, Step.gitCommit, Step.gitPush, Step.ghRelease],
                  some PyError.calledProcessError)
            else
              ([Step.gitClean, Step.latexmk] ++ tagSteps env ++
                [Step.gitAdd, Step.gitCommit, Step.gitPush],
                some PyError.calledProcessError)
          else
            ([Step.gitClean, Step.latexmk] ++ tagSteps env ++
              [Step.gitAdd, Step.gitCommit], some PyError.calledProcessError)
        else
          ([Step.gitClean, Step.latexmk] ++ tagSteps env ++ [Step.gitAdd],
            some PyError.calledProcessError)
    else
      ([Step.gitClean, Step.latexmk], some PyError.calledProcessError)
  else
    ([Step.gitClean], some PyError.calledProcessError)

/-- Embedding of the `argparse` surface in `__main__`: one positional
argument `mode` with `choices=[mode.value for mode in BumpMode]`.  Parsing
succeeds exactly when a single argument is supplied and it is one of the
choices; on any other command line `argparse` errors out (exit 2) before
`release` is called. -/
def parseArgs (argv : List String) : Option String :=
  match argv with
  | [m] => if m ∈ bumpModeValues then some m else none
  | _ => none

/-- Strict lexicographic order on (major, minor, patch) triples. -/
def lexLt (u v : Nat × Nat × Nat) : Prop :=
  u.1 < v.1 ∨ (u.1 = v.1 ∧ (u.2.1 < v.2.1 ∨ (u.2.1 = v.2.1 ∧ u.2.2 < v.2.2)))

instance (u v : Nat × Nat × Nat) : Decidable (lexLt u v) := by
  unfold lexLt
  infer_instance

/-! Helper lemmas about decimal digits and the version-string parser. -/

theorem digitChar_isDigit (d : Nat) (h : d < 10) : (digitChar d).isDigit = true := by
  interval_cases d <;> decide

theorem charDigitVal_digitChar (d : Nat) (h : d < 10) : charDigitVal (digitChar d) = d := by
  interval_cases d <;> decide

theorem isDigit_ne_dot {c : Char} (h : c.isDigit = true) : c ≠ '.' := by
  rintro rfl
  exact absurd h (by decide)

theorem isDigit_not_v {c : Char} (h : c.isDigit = true) : ¬(c = 'v' ∨ c = 'V') := by
  rintro (rfl | rfl) <;> exact absurd h (by decide)

theorem decDigitsCore_eq (fuel : Nat) : ∀ (n : Nat) (acc : List Char), 0 < n → n ≤ fuel →
    decDigitsCore fuel n acc = (Nat.digits 10 n).reverse.map digitChar ++ acc := by
  induction fuel with
  | zero => intro n acc hn hf; omega
  | succ fuel ih =>
    intro n acc hn hf
    simp only [decDigitsCore]
    by_cases h10 : n < 10
    · rw [if_pos h10]
      have hd : Nat.digits 10 n = [n] := by
        rw [Nat.digits_def' (by norm_num : (1 : ℕ) < 10) hn,
          Nat.mod_eq_of_lt h10, Nat.div_eq_of_lt h10]
        simp
      rw [hd]
      simp
    · rw [if_neg h10]
      have hd : Nat.digits 10 n = n % 10 :: Nat.digits 10 (n / 10) :=
        Nat.digits_def' (by norm_num) hn
      have hpos : 0 < n / 10 := Nat.div_pos (le_of_not_lt h10) (by norm_num)
      have hle : n / 10 ≤ fuel := by
        have := Nat.div_lt_self hn (by norm_num : 1 < 10)
        omega
      rw [ih (n / 10) _ hpos hle, hd]
      simp

theorem decDigits_eq (n : Nat) (hn : n ≠ 0) :
    decDigits n = (Nat.digits 10 n).reverse.map digitChar := by
  rw [decDigits, if_neg hn, decDigitsCore_eq n n [] (Nat.pos_of_ne_zero hn) le_rfl]
  simp

theorem decDigits_ne_nil (n : Nat) : decDigits n ≠ [] := by
  by_cases hn : n = 0
  · subst hn; decide
  · rw [decDigits_eq n hn]
    simp [hn, Nat.digits_ne_nil_iff_ne_zero]

theorem decDigits_all_isDigit (n : Nat) : ∀ c ∈ decDigits n, c.isDigit = true := by
  intro c hc
  by_cases hn : n = 0
  · subst hn
    simp [decDigits] at hc
    subst hc
    decide
  · rw [decDigits_eq n hn] at hc
    simp only [List.mem_map, List.mem_reverse] at hc
    obtain ⟨d, hd, rfl⟩ := hc
    exact digitChar_isDigit d (Nat.digits_lt_base (by norm_num) hd)

theorem foldl_digitChar (L : List Nat) : ∀ a : Nat, (∀ d ∈ L, d < 10) →
    List.foldl (fun x c => x * 10 + charDigitVal c) a (L.reverse.map digitChar) =
      a * 10 ^ L.length + Nat.ofDigits 10 L := by
  induction L with
  | nil => intro a _; simp [Nat.ofDigits]
  | cons d L ih =>
    intro a hL
    have hd : d < 10 := hL d (by simp)
    have hL2 : ∀ x ∈ L, x < 10 := fun x hx => hL x (by simp [hx])
    rw [List.reverse_cons, List.map_append, List.foldl_append, ih a hL2]
    simp only [List.map_cons, List.map_nil, List.foldl_cons, List.foldl_nil,
      Nat.ofDigits_cons, charDigitVal_digitChar d hd, List.length_cons, Nat.cast_id]
    ring

theorem natOfDigits_decDigits (n : Nat) : natOfDigits (decDigits n) = n := by
  by_cases hn : n = 0
  · subst hn; decide
  · rw [decDigits_eq n hn, natOfDigits,
      foldl_digitChar _ 0 (fun d hd => Nat.digits_lt_base (by norm_num) hd)]
    simp [Nat.ofDigits_digits]

theorem parseNatDigits_of_digits (cs : List Char) (hne : cs ≠ [])
    (hd : ∀ c ∈ cs, c.isDigit = true) : parseNatDigits cs = some (natOfDigits cs) := by
  have h1 : cs.isEmpty = false := by
    rcases cs with _ | ⟨c, t⟩
    · exact absurd rfl hne
    · rfl
  have h2 : cs.all Char.isDigit = true := by
    rw [List.all_eq_true]
    exact hd
  simp [parseNatDigits, h1, h2]

theorem splitOnDot_no_dot (cs : List Char) (h : ∀ c ∈ cs, c ≠ '.') :
    splitOnDot cs = [cs] := by
  induction cs with
  | nil => rfl
  | cons c cs ih =>
    have hc : c ≠ '.' := h c (by simp)
    have ih2 := ih (fun x hx => h x (by simp [hx]))
    rw [splitOnDot, if_neg hc, ih2]

theorem splitOnDot_append (l rest : List Char) (h : ∀ c ∈ l, c ≠ '.') :
    splitOnDot (l ++ '.' :: rest) = l :: splitOnDot rest := by
  induction l with
  | nil =>
    simp only [List.nil_append]
    rw [splitOnDot, if_pos rfl]
  | cons c l ih =>
    have hc : c ≠ '.' := h c (by simp)
    have ih2 := ih (fun x hx => h x (by simp [hx]))
    simp only [List.cons_append]
    rw [splitOnDot, if_neg hc, ih2]

theorem parseVersionChars_triple (d1 d2 d3 : List Char)
    (h1 : d1 ≠ []) (h1d : ∀ c ∈ d1, c.isDigit = true)
    (h2 : d2 ≠ []) (h2d : ∀ c ∈ d2, c.isDigit = true)
    (h3 : d3 ≠ []) (h3d : ∀ c ∈ d3, c.isDigit = true) :
    parseVersionChars (d1 ++ '.' :: (d2 ++ '.' :: d3)) =
      some ⟨0, [natOfDigits d1, natOfDigits d2, natOfDigits d3],
        none, none, none, none⟩ := by
  obtain ⟨c, t, rfl⟩ : ∃ c t, d1 = c :: t := by
    rcases d1 with _ | ⟨c, t⟩
    · exact absurd rfl h1
    · exact ⟨c, t, rfl⟩
  have hdrop : dropLeadingV ((c :: t) ++ '.' :: (d2 ++ '.' :: d3)) =
      (c :: t) ++ '.' :: (d2 ++ '.' :: d3) := by
    simp only [List.cons_append, dropLeadingV]
    rw [if_neg (isDigit_not_v (h1d c (by simp)))]
  rw [parseVersionChars, hdrop,
    splitOnDot_append _ _ (fun x hx => isDigit_ne_dot (h1d x hx)),
    splitOnDot_append _ _ (fun x hx => isDigit_ne_dot (h2d x hx)),
    splitOnDot_no_dot _ (fun x hx => isDigit_ne_dot (h3d x hx)),
    parseParts, parseNatDigits_of_digits _ h1 h1d,
    parseParts, parseNatDigits_of_digits _ h2 h2d,
    parseParts, parseNatDigits_of_digits _ h3 h3d,
    parseParts]

theorem data_decRepr (n : Nat) : (decRepr n).data = decDigits n := rfl

theorem bump_major_eq (v : Version) (a b c : Nat) (h : v.release = [a, b, c]) :
    _bump_version v "major" = Except.ok ⟨0, [a + 1, 0, 0], none, none, none, none⟩ := by
  have hdata : (decRepr (a + 1) ++ ".0.0").data
      = decDigits (a + 1) ++ '.' :: (['0'] ++ '.' :: ['0']) := by
    rw [String.data_append]
    rfl
  have hparse := parseVersionChars_triple (decDigits (a + 1)) ['0'] ['0']
    (decDigits_ne_nil _) (decDigits_all_isDigit _)
    (by decide) (by decide) (by decide) (by decide)
  rw [natOfDigits_decDigits] at hparse
  have h0 : natOfDigits ['0'] = 0 := rfl
  rw [h0] at hparse
  simp only [_bump_version, h]
  rw [if_true, VersionOfString, hdata, hparse]

theorem bump_minor_eq (v : Version) (a b c : Nat) (h : v.release = [a, b, c]) :
    _bump_version v "minor" = Except.ok ⟨0, [a, b + 1, 0], none, none, none, none⟩ := by
  have hdata : (decRepr a ++ "." ++ decRepr (b + 1) ++ ".0").data
      = decDigits a ++ '.' :: (decDigits (b + 1) ++ '.' :: ['0']) := by
    simp [String.data_append, data_decRepr]
  have hparse := parseVersionChars_triple (decDigits a) (decDigits (b + 1)) ['0']
    (decDigits_ne_nil _) (decDigits_all_isDigit _)
    (decDigits_ne_nil _) (decDigits_all_isDigit _)
    (by decide) (by decide)
  rw [natOfDigits_decDigits, natOfDigits_decDigits] at hparse
  have h0 : natOfDigits ['0'] = 0 := rfl
  rw [h0] at hparse
  simp only [_bump_version, h]
  rw [if_neg (by decide : ¬("minor" : String) = "major"), if_true,
    VersionOfString, hdata, hparse]

theorem bump_patch_eq (v : Version) (a b c : Nat) (h : v.release = [a, b, c]) :
    _bump_version v "patch" = Except.ok ⟨0, [a, b, c + 1], none, none, none, none⟩ := by
  have hdata : (decRepr a ++ "." ++ decRepr b ++ "." ++ decRepr (c + 1)).data
      = decDigits a ++ '.' :: (decDigits b ++ '.' :: decDigits (c + 1)) := by
    simp [String.data_append, data_decRepr]
  have hparse := parseVersionChars_triple (decDigits a) (decDigits b) (decDigits (c + 1))
    (decDigits_ne_nil _) (decDigits_all_isDigit _)
    (decDigits_ne_nil _) (decDigits_all_isDigit _)
    (decDigits_ne_nil _) (decDigits_all_isDigit _)
  rw [natOfDigits_decDigits, natOfDigits_decDigits, natOfDigits_decDigits] at hparse
  simp only [_bump_version, h]
  rw [if_neg (by decide : ¬("patch" : String) = "major"),
    if_neg (by decide : ¬("patch" : String) = "minor"), if_true,
    VersionOfString, hdata, hparse]

theorem lstripV_cons_v (rest : List Char) : lstripV ('v' :: rest) = lstripV rest := by
  simp [lstripV, List.dropWhile_cons]

theorem lstripV_replicate (k : Nat) (rest : List Char) :
    lstripV (List.replicate k 'v' ++ rest) = lstripV rest := by
  induction k with
  | zero => simp
  | succ k ih =>
    rw [List.replicate_succ, List.cons_append, lstripV_cons_v]
    exact ih

theorem bump_not_invalid_mode (v : Version) (m : String) (hm : m ∈ bumpModeValues) :
    ∀ s, _bump_version v m ≠ Except.error (PyError.invalidBumpMode s) := by
  intro s
  rcases hrel : v.release with _ | ⟨a, _ | ⟨b, _ | ⟨c, _ | ⟨d, t⟩⟩⟩⟩
  · simp [_bump_version, hrel]
  · simp [_bump_version, hrel]
  · simp [_bump_version, hrel]
  · simp only [bumpModeValues, List.mem_cons, List.mem_singleton,
      List.not_mem_nil, or_false] at hm
    rcases hm with rfl | rfl | rfl
    · rw [bump_major_eq v a b c hrel]; simp
    · rw [bump_minor_eq v a b c hrel]; simp
    · rw [bump_patch_eq v a b c hrel]; simp
  · simp [_bump_version, hrel]

/-! Claim theorems and their witnesses. -/

/-- Claim C1: for every version whose release tuple is the triple (a, b, c)
and every valid bump mode, `_bump_version` returns (a+1, 0, 0) for major,
(a, b+1, 0) for minor, and (a, b, c+1) for patch; in particular
bump((1,2,3), major) = (2,0,0), bump((1,2,3), minor) = (1,3,0) and
bump((1,2,3), patch) = (1,2,4). -/
theorem C1_bump_version_components (v : Version) (a b c : Nat)
    (h : v.release = [a, b, c]) :
    _bump_version v "major" = Except.ok ⟨0, [a + 1, 0, 0], none, none, none, none⟩ ∧
    _bump_version v "minor" = Except.ok ⟨0, [a, b + 1, 0], none, none, none, none⟩ ∧
    _bump_version v "patch" = Except.ok ⟨0, [a, b, c + 1], none, none, none, none⟩ :=
  ⟨bump_major_eq v a b c h, bump_minor_eq v a b c h, bump_patch_eq v a b c h⟩

/-- Witness for claim C1 at the concrete version (1, 2, 3). -/
theorem C1_bump_version_components_witness :
    (⟨0, [1, 2, 3], none, none, none, none⟩ : Version).release = [1, 2, 3] ∧
    (_bump_version ⟨0, [1, 2, 3], none, none, none, none⟩ "major" =
        Except.ok ⟨0, [2, 0, 0], none, none, none, none⟩ ∧
      _bump_version ⟨0, [1, 2, 3], none, none, none, none⟩ "minor" =
        Except.ok ⟨0, [1, 3, 0], none, none, none, none⟩ ∧
      _bump_version ⟨0, [1, 2, 3], none, none, none, none⟩ "patch" =
        Except.ok ⟨0, [1, 2, 4], none, none, none, none⟩) :=
  ⟨rfl, C1_bump_version_components ⟨0, [1, 2, 3], none, none, none, none⟩ 1 2 3 rfl⟩

/-- Claim C2: for every version whose release tuple is a triple and every
mode in {major, minor, patch}, the version produced by `_bump_version` is
strictly greater under the lexicographic (major, minor, patch) order. -/
theorem C2_bump_version_increases (v : Version) (a b c : Nat) (m : String)
    (hr : v.release = [a, b, c]) (hm : m ∈ bumpModeValues) :
    ∃ a2 b2 c2,
      _bump_version v m = Except.ok ⟨0, [a2, b2, c2], none, none, none, none⟩ ∧
      lexLt (a, b, c) (a2, b2, c2) := by
  simp only [bumpModeValues, List.mem_cons, List.mem_singleton,
    List.not_mem_nil, or_false] at hm
  rcases hm with rfl | rfl | rfl
  · refine ⟨a + 1, 0, 0, bump_major_eq v a b c hr, ?_⟩
    unfold lexLt
    exact Or.inl (Nat.lt_succ_self a)
  · refine ⟨a, b + 1, 0, bump_minor_eq v a b c hr, ?_⟩
    unfold lexLt
    exact Or.inr ⟨rfl, Or.inl (Nat.lt_succ_self b)⟩
  · refine ⟨a, b, c + 1, bump_patch_eq v a b c hr, ?_⟩
    unfold lexLt
    exact Or.inr ⟨rfl, Or.inr ⟨rfl, Nat.lt_succ_self c⟩⟩

/-- Witness for claim C2 at the concrete version (1, 2, 3) and mode minor. -/
theorem C2_bump_version_increases_witness :
    (⟨0, [1, 2, 3], none, none, none, none⟩ : Version).release = [1, 2, 3] ∧
    "minor" ∈ bumpModeValues ∧
    ∃ a2 b2 c2,
      _bump_version ⟨0, [1, 2, 3], none, none, none, none⟩ "minor" =
        Except.ok ⟨0, [a2, b2, c2], none, none, none, none⟩ ∧
      lexLt (1, 2, 3) (a2, b2, c2) :=
  ⟨rfl, by decide,
    C2_bump_version_increases ⟨0, [1, 2, 3], none, none, none, none⟩ 1 2 3 "minor"
      rfl (by decide)⟩

/-- Claim C3: calling `_bump_version` with any mode value other than major,
minor or patch fails with a ValueError — and when the release tuple is a
triple, with precisely the invalid-bump-mode ValueError. -/
theorem C3_bump_version_invalid_mode (v : Version) (m : String)
    (hm : m ∉ bumpModeValues) :
    (∃ e, _bump_version v m = Except.error e ∧ e.isValueError = true) ∧
    (∀ a b c, v.release = [a, b, c] →
      _bump_version v m = Except.error (PyError.invalidBumpMode m)) := by
  have hmaj : ¬(m = "major") := by rintro rfl; exact hm (by decide)
  have hmin : ¬(m = "minor") := by rintro rfl; exact hm (by decide)
  have hpat : ¬(m = "patch") := by rintro rfl; exact hm (by decide)
  constructor
  · rcases hrel : v.release with _ | ⟨a, _ | ⟨b, _ | ⟨c, _ | ⟨d, t⟩⟩⟩⟩
    · exact ⟨PyError.unpackError, by simp [_bump_version, hrel], rfl⟩
    · exact ⟨PyError.unpackError, by simp [_bump_version, hrel], rfl⟩
    · exact ⟨PyError.unpackError, by simp [_bump_version, hrel], rfl⟩
    · exact ⟨PyError.invalidBumpMode m,
        by simp [_bump_version, hrel, hmaj, hmin, hpat], rfl⟩
    · exact ⟨PyError.unpackError, by simp [_bump_version, hrel], rfl⟩
  · intro a b c hrel
    simp [_bump_version, hrel, hmaj, hmin, hpat]

/-- Witness for claim C3 at the concrete version (1, 2, 3) and the
unrecognized mode string "bogus". -/
theorem C3_bump_version_invalid_mode_witness :
    ("bogus" ∉ bumpModeValues) ∧
    ((∃ e, _bump_version ⟨0, [1, 2, 3], none, none, none, none⟩ "bogus" =
        Except.error e ∧ e.isValueError = true) ∧
      (∀ a b c, (⟨0, [1, 2, 3], none, none, none, none⟩ : Version).release = [a, b, c] →
        _bump_version ⟨0, [1, 2, 3], none, none, none, none⟩ "bogus" =
          Except.error (PyError.invalidBumpMode "bogus"))) :=
  ⟨by decide,
    C3_bump_version_invalid_mode ⟨0, [1, 2, 3], none, none, none, none⟩ "bogus"
      (by decide)⟩

/-- Claim C4: `_get_latest_tag` returns the default version 0.0.0 whenever
the tag fetch fails, the tag query fails, or the (stripped) tag string
fails to parse, instead of propagating the failure. -/
theorem C4_get_latest_tag_fallback (env : Env) :
    (env.fetchOk = false → _get_latest_tag env = version000) ∧
    (env.describeOut = none → _get_latest_tag env = version000) ∧
    (∀ s, env.describeOut = some s →
      parseVersionChars (lstripV (pyStrip s.data)) = none →
      _get_latest_tag env = version000) := by
  refine ⟨fun h => by simp [_get_latest_tag, h], fun h => ?_, fun s hs hp => ?_⟩
  · by_cases hf : env.fetchOk
    · simp [_get_latest_tag, hf, h]
    · simp [_get_latest_tag, hf]
  · by_cases hf : env.fetchOk
    · simp [_get_latest_tag, hf, hs, hp]
    · simp [_get_latest_tag, hf]

/-- Witness for claim C4: a tag string that is not a version parses to
nothing and the resolver yields 0.0.0. -/
theorem C4_get_latest_tag_fallback_witness :
    _get_latest_tag ⟨true, true, true, some "not-a-version", true, true, true, true, true⟩ =
      version000 :=
  (C4_get_latest_tag_fallback
    ⟨true, true, true, some "not-a-version", true, true, true, true, true⟩).2.2
    "not-a-version" rfl (by decide)

/-- Claim C5: the CLI accepts exactly one positional argument constrained to
{major, minor, patch} and rejects anything else during argument parsing;
consequently, for a mode that survives parsing, the invalid-bump-mode error
branch of `_bump_version` is unreachable. -/
theorem C5_cli_restricts_mode (argv : List String) (m : String)
    (h : parseArgs argv = some m) :
    argv = [m] ∧ m ∈ bumpModeValues ∧
      ∀ (v : Version) (s : String),
        _bump_version v m ≠ Except.error (PyError.invalidBumpMode s) := by
  obtain ⟨rfl, hmem⟩ : argv = [m] ∧ m ∈ bumpModeValues := by
    rcases argv with _ | ⟨a, _ | ⟨b, t⟩⟩
    · simp [parseArgs] at h
    · simp only [parseArgs] at h
      by_cases ha : a ∈ bumpModeValues
      · rw [if_pos ha] at h
        obtain rfl : a = m := Option.some.inj h
        exact ⟨rfl, ha⟩
      · rw [if_neg ha] at h
        exact absurd h (by simp)
    · simp [parseArgs] at h
  exact ⟨rfl, hmem, fun v s => bump_not_invalid_mode v m hmem s⟩

/-- Witness for claim C5 at the concrete command line ["minor"]. -/
theorem C5_cli_restricts_mode_witness :
    parseArgs ["minor"] = some "minor" ∧
    (["minor"] = [("minor" : String)] ∧ "minor" ∈ bumpModeValues ∧
      ∀ (v : Version) (s : String),
        _bump_version v "minor" ≠ Except.error (PyError.invalidBumpMode s)) :=
  ⟨rfl, C5_cli_restricts_mode ["minor"] "minor" rfl⟩

/-- Claim C6: when the stripped tag string carries a leading 'v',
`_get_latest_tag` removes it (after the whitespace strip) before parsing
the remainder. -/
theorem C6_get_latest_tag_strips_v (env : Env) (out : String) (rest : List Char)
    (hfetch : env.fetchOk = true) (hd : env.describeOut = some out)
    (hstrip : pyStrip out.data = 'v' :: rest) :
    _get_latest_tag env =
      match parseVersionChars (lstripV rest) with
      | some v => v
      | none => version000 := by
  simp only [_get_latest_tag, hfetch, hd, if_true]
  rw [hstrip, lstripV_cons_v]

/-- Witness for claim C6 at the tag stdout " v1.2.3\n". -/
theorem C6_get_latest_tag_strips_v_witness :
    pyStrip (String.data " v1.2.3\n") = 'v' :: String.data "1.2.3" ∧
    _get_latest_tag ⟨true, true, true, some " v1.2.3\n", true, true, true, true, true⟩ =
      ⟨0, [1, 2, 3], none, none, none, none⟩ := by
  refine ⟨by decide, ?_⟩
  rw [C6_get_latest_tag_strips_v
    ⟨true, true, true, some " v1.2.3\n", true, true, true, true, true⟩
    " v1.2.3\n" (String.data "1.2.3") rfl rfl (by decide)]
  decide

/-- Claim C7: a non-zero exit of any external command of `release` —
cleanup, build, add, commit, push, publish, final cleanup — raises
immediately, so the trace ends at the failing command and no later command
runs; and when all of those succeed the run succeeds whatever the tag
fetch and tag query did — their failures are the only recovered ones. -/
theorem C7_release_aborts_on_failure (env : Env) (m : String) :
    (env.cleanOk = false →
      release env m = ([Step.gitClean], some PyError.calledProcessError)) ∧
    (env.cleanOk = true → env.latexmkOk = false →
      release env m = ([Step.gitClean, Step.latexmk], some PyError.calledProcessError)) ∧
    (∀ w, _bump_version (_get_latest_tag env) m = Except.ok w →
      env.cleanOk = true → env.latexmkOk = true → env.addOk = false →
      release env m = ([Step.gitClean, Step.latexmk] ++ tagSteps env ++ [Step.gitAdd],
        some PyError.calledProcessError)) ∧
    (∀ w, _bump_version (_get_latest_tag env) m = Except.ok w →
      env.cleanOk = true → env.latexmkOk = true → env.addOk = true →
      env.commitOk = false →
      release env m = ([Step.gitClean, Step.latexmk] ++ tagSteps env ++
        [Step.gitAdd, Step.gitCommit], some PyError.calledProcessError)) ∧
    (∀ w, _bump_version (_get_latest_tag env) m = Except.ok w →
      env.cleanOk = true → env.latexmkOk = true → env.addOk = true →
      env.commitOk = true → env.pushOk = false →
      release env m = ([Step.gitClean, Step.latexmk] ++ tagSteps env ++
        [Step.gitAdd, Step.gitCommit, Step.gitPush], some PyError.calledProcessError)) ∧
    (∀ w, _bump_version (_get_latest_tag env) m = Except.ok w →
      env.cleanOk = true → env.latexmkOk = true → env.addOk = true →
      env.commitOk = true → env.pushOk = true → env.ghReleaseOk = false →
      release env m = ([Step.gitClean, Step.latexmk] ++ tagSteps env ++
        [Step.gitAdd, Step.gitCommit, Step.gitPush, Step.ghRelease],
        some PyError.calledProcessError)) ∧
    (∀ w, _bump_version (_get_latest_tag env) m = Except.ok w →
      env.cleanOk = true → env.latexmkOk = true → env.addOk = true →
      env.commitOk = true → env.pushOk = true → env.ghReleaseOk = true →
      env.cleanOk2 = false →
      release env m = ([Step.gitClean, Step.latexmk] ++ tagSteps env ++
        [Step.gitAdd, Step.gitCommit, Step.gitPush, Step.ghRelease, Step.gitClean],
        some PyError.calledProcessError)) ∧
    (∀ w, _bump_version (_get_latest_tag env) m = Except.ok w →
      env.cleanOk = true → env.latexmkOk = true → env.addOk = true →
      env.commitOk = true → env.pushOk = true → env.ghReleaseOk = true →
      env.cleanOk2 = true →
      release env m = ([Step.gitClean, Step.latexmk] ++ tagSteps env ++
        [Step.gitAdd, Step.gitCommit, Step.gitPush, Step.ghRelease, Step.gitClean],
        none)) := by
  refine ⟨fun h1 => ?_, fun h1 h2 => ?_, fun w hb h1 h2 h3 => ?_,
    fun w hb h1 h2 h3 h4 => ?_, fun w hb h1 h2 h3 h4 h5 => ?_,
    fun w hb h1 h2 h3 h4 h5 h6 => ?_, fun w hb h1 h2 h3 h4 h5 h6 h7 => ?_,
    fun w hb h1 h2 h3 h4 h5 h6 h7 => ?_⟩
  · simp [release, h1]
  · simp [release, h1, h2]
  · simp [release, hb, h1, h2, h3]
  · simp [release, hb, h1, h2, h3, h4]
  · simp [release, hb, h1, h2, h3, h4, h5]
  · simp [release, hb, h1, h2, h3, h4, h5, h6]
  · simp [release, hb, h1, h2, h3, h4, h5, h6, h7]
  · simp [release, hb, h1, h2, h3, h4, h5, h6, h7]

/-- Witness for claim C7: with a reachable tag v0.1.0 and mode patch, a
failing `git push` ends the trace at the push and aborts with
CalledProcessError; no publish or final cleanup runs. -/
theorem C7_release_aborts_on_failure_witness :
    release ⟨true, true, true, some "v0.1.0\n", true, true, false, true, true⟩ "patch" =
      ([Step.gitClean, Step.latexmk, Step.gitFetch, Step.gitDescribe,
        Step.gitAdd, Step.gitCommit, Step.gitPush], some PyError.calledProcessError) := by
  rw [(C7_release_aborts_on_failure
    ⟨true, true, true, some "v0.1.0\n", true, true, false, true, true⟩
    "patch").2.2.2.2.1 ⟨0, [0, 1, 1], none, none, none, none⟩ rfl rfl rfl rfl rfl rfl]
  rfl

/-- Claim C8: a release tuple without exactly three components makes
`_bump_version` raise the tuple-unpacking ValueError whatever the mode;
that error is distinct from the invalid-mode error, and such versions do
reach `_bump_version`, since a two-component tag such as "1.2" parses
successfully — the 0.0.0 fallback does not fire. -/
theorem C8_bump_version_unpack_error (v : Version) (m : String)
    (h : v.release.length ≠ 3) :
    _bump_version v m = Except.error PyError.unpackError ∧
    (∀ s, PyError.unpackError ≠ PyError.invalidBumpMode s) ∧
    _get_latest_tag ⟨true, true, true, some "1.2", true, true, true, true, true⟩ =
      ⟨0, [1, 2], none, none, none, none⟩ := by
  constructor
  · rcases hrel : v.release with _ | ⟨a, _ | ⟨b, _ | ⟨c, _ | ⟨d, t⟩⟩⟩⟩
    · simp [_bump_version, hrel]
    · simp [_bump_version, hrel]
    · simp [_bump_version, hrel]
    · exact absurd (by simp [hrel] : v.release.length = 3) h
    · simp [_bump_version, hrel]
  · exact ⟨fun s => by simp, by decide⟩

/-- Witness for claim C8 at the two-component version (1, 2) and mode major. -/
theorem C8_bump_version_unpack_error_witness :
    (⟨0, [1, 2], none, none, none, none⟩ : Version).release.length ≠ 3 ∧
    _bump_version ⟨0, [1, 2], none, none, none, none⟩ "major" =
      Except.error PyError.unpackError :=
  ⟨by decide,
    (C8_bump_version_unpack_error ⟨0, [1, 2], none, none, none, none⟩ "major"
      (by decide)).1⟩

/-- Claim C9: for every input version with a three-component release and
every valid mode, the output of `_bump_version` is a plain three-component
release — epoch 0 and no pre-release, post-release, dev or local segment,
whatever segments the input carried. -/
theorem C9_bump_version_plain_release (v : Version) (a b c : Nat) (m : String)
    (hr : v.release = [a, b, c]) (hm : m ∈ bumpModeValues) :
    ∃ w, _bump_version v m = Except.ok w ∧ w.epoch = 0 ∧ w.pre = none ∧
      w.post = none ∧ w.dev = none ∧ w.localSeg = none ∧ w.release.length = 3 := by
  simp only [bumpModeValues, List.mem_cons, List.mem_singleton,
    List.not_mem_nil, or_false] at hm
  rcases hm with rfl | rfl | rfl
  · exact ⟨_, bump_major_eq v a b c hr, rfl, rfl, rfl, rfl, rfl, rfl⟩
  · exact ⟨_, bump_minor_eq v a b c hr, rfl, rfl, rfl, rfl, rfl, rfl⟩
  · exact ⟨_, bump_patch_eq v a b c hr, rfl, rfl, rfl, rfl, rfl, rfl⟩

/-- Witness for claim C9 at an input carrying epoch 7 and pre/post/dev/local
segments, with mode minor. -/
theorem C9_bump_version_plain_release_witness :
    (⟨7, [1, 2, 3], some ("rc", 1), some 4, some 5, some "ubuntu"⟩ : Version).release
        = [1, 2, 3] ∧
    "minor" ∈ bumpModeValues ∧
    ∃ w, _bump_version ⟨7, [1, 2, 3], some ("rc", 1), some 4, some 5, some "ubuntu"⟩
        "minor" = Except.ok w ∧ w.epoch = 0 ∧ w.pre = none ∧ w.post = none ∧
      w.dev = none ∧ w.localSeg = none ∧ w.release.length = 3 :=
  ⟨rfl, by decide,
    C9_bump_version_plain_release ⟨7, [1, 2, 3], some ("rc", 1), some 4, some 5,
      some "ubuntu"⟩ 1 2 3 "minor" rfl (by decide)⟩

/-- Claim C10: `_get_latest_tag` strips every leading 'v' of the stripped
tag string, not just one, before parsing; in particular "vv1.2.3" resolves
to version 1.2.3. -/
theorem C10_get_latest_tag_strips_all_v (env : Env) (out : String) (k : Nat)
    (rest : List Char) (hfetch : env.fetchOk = true) (hd : env.describeOut = some out)
    (hstrip : pyStrip out.data = List.replicate k 'v' ++ rest) :
    _get_latest_tag env =
      match parseVersionChars (lstripV rest) with
      | some v => v
      | none => version000 := by
  simp only [_get_latest_tag, hfetch, hd, if_true]
  rw [hstrip, lstripV_replicate]

/-- Witness for claim C10 at the tag "vv1.2.3", which parses as 1.2.3. -/
theorem C10_get_latest_tag_strips_all_v_witness :
    pyStrip (String.data "vv1.2.3") = List.replicate 2 'v' ++ String.data "1.2.3" ∧
    _get_latest_tag ⟨true, true, true, some "vv1.2.3", true, true, true, true, true⟩ =
      ⟨0, [1, 2, 3], none, none, none, none⟩ := by
  refine ⟨by decide, ?_⟩
  rw [C10_get_latest_tag_strips_all_v
    ⟨true, true, true, some "vv1.2.3", true, true, true, true, true⟩ "vv1.2.3" 2
    (String.data "1.2.3") rfl rfl (by decide)]
  decide

end ReleaseScript
